import Mathlib

/-!
Shallow embedding of the `zerox-client` Rust library (src/lib.rs): a client
for the 0x swap-quote HTTP API.  Machine integers (`u64`, `i32`, the 256-bit
`U256`) are modelled as `Nat`/`Int`; no arithmetic in the code can overflow
(the only numeric operations are parses with explicit range checks), so the
width shows up only as range conditions.  Fallible Rust code returns
`Except`/`Option`; a Rust panic (`unwrap`) is modelled as `Option.none` at
the call that can panic.
-/

namespace ZeroX

/-! ## JSON values (serde_json::Value)

Number values are modelled as integers: every numeric field the client
decodes (`chainId`, the order `type` code) is an `i32`, and serde_json
rejects non-integer numbers for those fields, so integer JSON numbers are
the live fragment. -/

/-- A serde_json `Value`, with numbers restricted to integers. -/
inductive Json where
  | null
  | bool (b : Bool)
  | num (n : Int)
  | str (s : String)
  | arr (elems : List Json)
  | obj (fields : List (String × Json))
deriving Repr

/-! ## Request parameters (struct ZeroXQuoteParams, lib.rs lines 8-20) -/

/-- The caller-supplied quote parameters. Field names follow the Rust struct. -/
structure ZeroXQuoteParams where
  sell_token : String
  buy_token : String
  sell_amount : String
  fee_recipient : Option String := none
  buy_token_percentage_fee : Option String := none
  taker_address : Option String := none
  slippage_percentage : Option String := none
  excluded_sources : Option (List String) := none
  included_sources : Option (List String) := none
  skip_validation : Option String := none
deriving DecidableEq, Repr

/-! ## Errors (enum ZeroXClientError, lib.rs lines 22-35)

`reqwest::Error` (the `ZeroXQuoteError` payload) is opaque to this library;
it is either a transport failure or a body-decode failure produced by
`Response::json`, so it is modelled as a two-variant sum carrying the
display message. `serde_json::Error` is modelled as its message string. -/

/-- A `reqwest::Error`: transport failure, or the decode failure
`Response::json` produces when the body is not valid JSON. -/
inductive ReqwestError where
  | transport (msg : String)
  | decode (msg : String)
deriving DecidableEq, Repr

/-- The library error enum `ZeroXClientError`. `u64` and the HTTP status
code are modelled as `Nat`. -/
inductive ZeroXClientError where
  | invalidChainId (id : Nat)
  | zeroXQuoteError (e : ReqwestError)
  | zeroXInvalidResponseStatusCode (code : Nat)
  | zeroXInvalidResponse (cause : String)
deriving DecidableEq, Repr

/-! ## The client (struct ZeroXClient and ZeroXClient::new, lib.rs 37-63) -/

/-- The client state: resolved base URL and the API key. -/
structure ZeroXClient where
  base_url : String
  api_key : String
deriving DecidableEq, Repr

/-- The chain-id to base-URL table built in `ZeroXClient::new` (lib.rs
lines 44-53), in source order.  The keys are distinct, so the
`HashMap` built from it answers `get` exactly as association-list lookup. -/
def baseUrlTable : List (Nat × String) :=
  [ (1, "https://api.0x.org"),
    (42161, "https://arbitrum.api.0x.org"),
    (43114, "https://avalanche.api.0x.org"),
    (250, "https://fantom.api.0x.org"),
    (137, "https://polygon.api.0x.org"),
    (42220, "https://celo.api.0x.org"),
    (56, "https://bsc.api.0x.org"),
    (10, "https://optimisim.api.0x.org") ]

/-- `ZeroXClient::new` (lib.rs lines 43-63): resolve the chain id against
the table, failing with `InvalidChainId` on a miss. -/
def ZeroXClient.new (chain_id : Nat) (api_key : String) :
    Except ZeroXClientError ZeroXClient :=
  match baseUrlTable.lookup chain_id with
  | none => .error (.invalidChainId chain_id)
  | some base_url => .ok { base_url := base_url, api_key := api_key }

/-! ## Query encoding (get_quote, lib.rs lines 78-109)

The Rust code inserts into a `HashMap<&str, String>`; all ten possible keys
are distinct string literals, so the map's bindings are exactly the inserted
pairs.  The encoding is modelled as the association list of inserted
bindings, in insertion order (the `HashMap` iteration order is unspecified;
no claim depends on order, only on the binding set). -/

/-- One optional string parameter: inserted under `key` iff present. -/
def optEntry (key : String) : Option String → List (String × String)
  | none => []
  | some v => [(key, v)]

/-- One optional list parameter: inserted under `key` as the comma-join of
its elements (Rust `Vec::join(",")`) iff present. -/
def optListEntry (key : String) : Option (List String) → List (String × String)
  | none => []
  | some l => [(key, String.intercalate "," l)]

/-- The query map built by `get_quote` (lib.rs lines 78-109): the three
required keys, then each optional key when the field is set, in the
source's insertion order. -/
def encodeQuery (p : ZeroXQuoteParams) : List (String × String) :=
  [("sellToken", p.sell_token), ("buyToken", p.buy_token),
   ("sellAmount", p.sell_amount)]
  ++ optEntry "takerAddress" p.taker_address
  ++ optEntry "feeRecipient" p.fee_recipient
  ++ optEntry "buyTokenPercentageFee" p.buy_token_percentage_fee
  ++ optEntry "slippagePercentage" p.slippage_percentage
  ++ optListEntry "excludedSources" p.excluded_sources
  ++ optListEntry "includedSources" p.included_sources
  ++ optEntry "skipValidation" p.skip_validation

/-! ## Response data model (lib.rs lines 133-204)

Every field is `Option`-typed, as in the Rust structs.  `i32` fields are
modelled as `Int` with the `i32` range enforced at decode time. -/

/-- `struct FillData` (lib.rs lines 133-138). -/
structure FillData where
  token_address_path : Option (List String)
  router : Option String
deriving DecidableEq, Repr

/-- `struct Order` (lib.rs lines 140-152).  The Rust field `type_` is
serialized under the JSON key `type`. -/
structure Order where
  maker_token : Option String
  taker_token : Option String
  maker_amount : Option String
  taker_amount : Option String
  fill_data : Option FillData
  source : Option String
  source_path_id : Option String
  type_ : Option Int
deriving DecidableEq, Repr

/-- `struct Source` (lib.rs lines 154-159). -/
structure Source where
  name : Option String
  proportion : Option String
deriving DecidableEq, Repr

/-- `struct ZeroExFee` (lib.rs lines 167-174). -/
structure ZeroExFee where
  billing_type : Option String
  fee_amount : Option String
  fee_token : Option String
  fee_type : Option String
deriving DecidableEq, Repr

/-- `struct Fees` (lib.rs lines 161-165). -/
structure Fees where
  zero_ex_fee : Option ZeroExFee
deriving DecidableEq, Repr

/-- `struct ZeroXQuoteResponse` (lib.rs lines 176-204), all 25 fields,
with `rename_all = "camelCase"` applied at decode time. -/
structure ZeroXQuoteResponse where
  chain_id : Option Int := none
  price : Option String := none
  guaranteed_price : Option String := none
  estimated_price_impact : Option String := none
  «to» : Option String := none
  data : Option String := none
  value : Option String := none
  gas : Option String := none
  estimated_gas : Option String := none
  gas_price : Option String := none
  protocol_fee : Option String := none
  minimum_protocol_fee : Option String := none
  buy_token_address : Option String := none
  sell_token_address : Option String := none
  buy_amount : Option String := none
  sell_amount : Option String := none
  sources : Option (List Source) := none
  orders : Option (List Order) := none
  allowance_target : Option String := none
  sell_token_to_eth_rate : Option String := none
  buy_token_to_eth_rate : Option String := none
  fees : Option Fees := none
  gross_price : Option String := none
  gross_buy_amount : Option String := none
  gross_sell_amount : Option String := none
deriving DecidableEq, Repr

/-! ## The strict decode (serde_json::from_value::<ZeroXQuoteResponse>)

This models the serde-derived `Deserialize` for the structs above: a struct
decodes from a JSON object; unknown keys are ignored; a known key occurring
twice is an error; a missing or `null` key gives `none` for an `Option`
field; a present non-null value must decode at the field's element type,
anything else is a type error.  Error values are messages (the
`serde_json::Error` display); only their presence matters to the claims. -/

/-- Look up a struct field key in an object: absent, present once, or a
duplicate-field error (serde rejects duplicated known fields). -/
def getOpt (key : String) (fields : List (String × Json)) :
    Except String (Option Json) :=
  match fields.filter (fun kv => kv.1 == key) with
  | [] => .ok none
  | [kv] => .ok (some kv.2)
  | _ => .error ("duplicate field " ++ key)

/-- Decode one `Option`-typed struct field: missing or `null` is `none`;
a present value must decode with `dec`. -/
def decodeField (dec : Json → Except String α) (key : String)
    (fields : List (String × Json)) : Except String (Option α) :=
  match getOpt key fields with
  | .error e => .error e
  | .ok none => .ok none
  | .ok (some .null) => .ok none
  | .ok (some v) => (dec v).map some

/-- Decode a JSON value as a Rust `String`. -/
def decString : Json → Except String String
  | .str s => .ok s
  | _ => .error "invalid type: expected a string"

/-- Decode a JSON value as a Rust `i32` (integer in the `i32` range). -/
def decI32 : Json → Except String Int
  | .num n =>
      if -2147483648 ≤ n ∧ n ≤ 2147483647 then .ok n
      else .error "invalid value: integer out of range of i32"
  | _ => .error "invalid type: expected an integer"

/-- Decode the elements of a JSON array in order (the serde `Vec`
visitor): the first element failure is the failure. -/
def decListAux (dec : Json → Except String α) : List Json → Except String (List α)
  | [] => .ok []
  | x :: rest => do
      let a ← dec x
      let as ← decListAux dec rest
      return a :: as

/-- Decode a JSON value as a Rust `Vec`, element-wise. -/
def decList (dec : Json → Except String α) : Json → Except String (List α)
  | .arr xs => decListAux dec xs
  | _ => .error "invalid type: expected an array"

/-- Derived `Deserialize` for `FillData`. -/
def decFillData : Json → Except String FillData
  | .obj fs => do
      let token_address_path ← decodeField (decList decString) "tokenAddressPath" fs
      let router ← decodeField decString "router" fs
      return { token_address_path, router }
  | _ => .error "invalid type: expected a map for FillData"

/-- Derived `Deserialize` for `Order`. -/
def decOrder : Json → Except String Order
  | .obj fs => do
      let maker_token ← decodeField decString "makerToken" fs
      let taker_token ← decodeField decString "takerToken" fs
      let maker_amount ← decodeField decString "makerAmount" fs
      let taker_amount ← decodeField decString "takerAmount" fs
      let fill_data ← decodeField decFillData "fillData" fs
      let source ← decodeField decString "source" fs
      let source_path_id ← decodeField decString "sourcePathId" fs
      let type_ ← decodeField decI32 "type" fs
      return { maker_token, taker_token, maker_amount, taker_amount,
               fill_data, source, source_path_id, type_ }
  | _ => .error "invalid type: expected a map for Order"

/-- Derived `Deserialize` for `Source`. -/
def decSource : Json → Except String Source
  | .obj fs => do
      let name ← decodeField decString "name" fs
      let proportion ← decodeField decString "proportion" fs
      return { name, proportion }
  | _ => .error "invalid type: expected a map for Source"

/-- Derived `Deserialize` for `ZeroExFee`. -/
def decZeroExFee : Json → Except String ZeroExFee
  | .obj fs => do
      let billing_type ← decodeField decString "billingType" fs
      let fee_amount ← decodeField decString "feeAmount" fs
      let fee_token ← decodeField decString "feeToken" fs
      let fee_type ← decodeField decString "feeType" fs
      return { billing_type, fee_amount, fee_token, fee_type }
  | _ => .error "invalid type: expected a map for ZeroExFee"

/-- Derived `Deserialize` for `Fees`. -/
def decFees : Json → Except String Fees
  | .obj fs => do
      let zero_ex_fee ← decodeField decZeroExFee "zeroExFee" fs
      return { zero_ex_fee }
  | _ => .error "invalid type: expected a map for Fees"

/-- `serde_json::from_value::<ZeroXQuoteResponse>` (lib.rs line 127):
the strict field-by-field decode of the quote response. -/
def fromValue : Json → Except String ZeroXQuoteResponse
  | .obj fs => do
      let chain_id ← decodeField decI32 "chainId" fs
      let price ← decodeField decString "price" fs
      let guaranteed_price ← decodeField decString "guaranteedPrice" fs
      let estimated_price_impact ← decodeField decString "estimatedPriceImpact" fs
      let «to» ← decodeField decString "to" fs
      let data ← decodeField decString "data" fs
      let value ← decodeField decString "value" fs
      let gas ← decodeField decString "gas" fs
      let estimated_gas ← decodeField decString "estimatedGas" fs
      let gas_price ← decodeField decString "gasPrice" fs
      let protocol_fee ← decodeField decString "protocolFee" fs
      let minimum_protocol_fee ← decodeField decString "minimumProtocolFee" fs
      let buy_token_address ← decodeField decString "buyTokenAddress" fs
      let sell_token_address ← decodeField decString "sellTokenAddress" fs
      let buy_amount ← decodeField decString "buyAmount" fs
      let sell_amount ← decodeField decString "sellAmount" fs
      let sources ← decodeField (decList decSource) "sources" fs
      let orders ← decodeField (decList decOrder) "orders" fs
      let allowance_target ← decodeField decString "allowanceTarget" fs
      let sell_token_to_eth_rate ← decodeField decString "sellTokenToEthRate" fs
      let buy_token_to_eth_rate ← decodeField decString "buyTokenToEthRate" fs
      let fees ← decodeField decFees "fees" fs
      let gross_price ← decodeField decString "grossPrice" fs
      let gross_buy_amount ← decodeField decString "grossBuyAmount" fs
      let gross_sell_amount ← decodeField decString "grossSellAmount" fs
      return { chain_id, price, guaranteed_price, estimated_price_impact,
               «to», data, value, gas, estimated_gas, gas_price,
               protocol_fee, minimum_protocol_fee, buy_token_address,
               sell_token_address, buy_amount, sell_amount, sources,
               orders, allowance_target, sell_token_to_eth_rate,
               buy_token_to_eth_rate, fees, gross_price, gross_buy_amount,
               gross_sell_amount }
  | _ => .error "invalid type: expected a map for ZeroXQuoteResponse"

/-! ## Request headers (get_quote, lib.rs lines 71-76)

`HeaderValue::from_str` (the `http` crate) accepts a string iff every byte
of it is 9 (horizontal tab) or in 32..=255 excluding 127 (DEL).  In UTF-8,
every byte of a multi-byte character is at least 0x80, hence legal; so the
check is equivalent, character-wise, to: no character with code point below
32 (other than 9) and no character 127.  The `.unwrap()` at lib.rs line 74
panics when the check fails; the panic is modelled as `none`. -/

/-- A character all of whose UTF-8 bytes are legal in an HTTP header
value. -/
def validHeaderChar (c : Char) : Bool :=
  decide ((32 ≤ c.toNat ∨ c.toNat = 9) ∧ c.toNat ≠ 127)

/-- `HeaderValue::from_str`: accepts the string iff every character is
header-legal. -/
def headerValueFromStr (s : String) : Option String :=
  if s.data.all validHeaderChar then some s else none

/-- The header map built by `get_quote` (lib.rs lines 71-76); `none` is
the panic of the `.unwrap()` on the API-key header. -/
def buildRequestHeaders (api_key : String) : Option (List (String × String)) :=
  match headerValueFromStr api_key with
  | none => none
  | some v => some [("0x-api-key", v), ("Content-Type", "application/json")]

/-! ## Response classification (get_quote, lib.rs lines 113-129)

The network interaction is an oracle: the embedding takes the HTTP response
as input.  `status` is `resp.status().as_u16()`.  `body` is the outcome of
`resp.json::<Value>().await` (lib.rs line 123): reading and parsing the
body inside reqwest, whose failure is a `reqwest::Error` — note, not a
`serde_json::Error` of this library. -/

/-- An HTTP response as `get_quote` observes it. -/
structure HttpResponse where
  status : Nat
  body : Except ReqwestError Json

/-- Lines 117-129 of `get_quote`: the status check, the generic decode
(already folded into `body`, its error converted by `?` through
`#[from] reqwest::Error` into `ZeroXQuoteError`), then the strict decode,
whose `serde_json::Error` converts into `ZeroXInvalidResponse`. -/
def processResponse (resp : HttpResponse) :
    Except ZeroXClientError ZeroXQuoteResponse :=
  if resp.status ≠ 200 then
    .error (.zeroXInvalidResponseStatusCode resp.status)
  else
    match resp.body with
    | .error e => .error (.zeroXQuoteError e)
    | .ok v =>
        match fromValue v with
        | .error cause => .error (.zeroXInvalidResponse cause)
        | .ok q => .ok q

/-- The outbound request assembled by `get_quote` (lib.rs lines 69-113):
URL, headers, query.  `none` is the header-building panic. -/
def buildRequest (c : ZeroXClient) (params : ZeroXQuoteParams) :
    Option (String × List (String × String) × List (String × String)) :=
  match buildRequestHeaders c.api_key with
  | none => none
  | some headers => some (c.base_url ++ "/swap/v1/quote", headers, encodeQuery params)

/-- `get_quote` (lib.rs lines 65-130) with the network as an oracle: build
the request (panicking on an illegal API key), then classify the supplied
response.  `none` is a panic; `some r` is the returned `Result`. -/
def get_quote (c : ZeroXClient) (params : ZeroXQuoteParams)
    (resp : HttpResponse) :
    Option (Except ZeroXClientError ZeroXQuoteResponse) :=
  match buildRequest c params with
  | none => none
  | some _ => some (processResponse resp)

/-! ## Hex and integer parsing (the ethers primitive types)

`to_transaction_request` delegates three parses to the ethers/parity
primitive-type crates:
* `Address` (`H160`, fixed-hash crate): optional `0x` prefix, then exactly
  40 hex digits;
* `Bytes` (ethers-core): optional `0x` prefix, then an even number of hex
  digits;
* `U256` (uint crate): `FromStr` parses HEXADECIMAL — optional `0x`
  prefix, then at most 64 hex digits (odd lengths are zero-padded on the
  left; the empty string is zero).  Decimal parsing is a different
  function (`from_dec_str`), which the code does not call.
Addresses and `U256` values are modelled as `Nat`, bytes as `List Nat`. -/

/-- Hexadecimal digit (either case). -/
def isHexDig (c : Char) : Bool :=
  decide ((48 ≤ c.toNat ∧ c.toNat ≤ 57) ∨ (97 ≤ c.toNat ∧ c.toNat ≤ 102)
    ∨ (65 ≤ c.toNat ∧ c.toNat ≤ 70))

/-- Value of a hexadecimal digit. -/
def hexDigVal (c : Char) : Nat :=
  if 48 ≤ c.toNat ∧ c.toNat ≤ 57 then c.toNat - 48
  else if 97 ≤ c.toNat ∧ c.toNat ≤ 102 then c.toNat - 87
  else c.toNat - 55

/-- Big-endian value of a hex-digit list. -/
def hexToNat (cs : List Char) : Nat :=
  cs.foldl (fun acc c => 16 * acc + hexDigVal c) 0

/-- Strip one leading `0x`, if any (Rust strip_prefix on the character
list of the string). -/
def strip0x : List Char → List Char
  | '0' :: 'x' :: rest => rest
  | cs => cs

/-- `str::parse::<Address>()`: exactly 40 hex digits after the optional
prefix. -/
def parseAddress (s : String) : Option Nat :=
  let t := strip0x s.data
  if t.length = 40 ∧ t.all isHexDig then some (hexToNat t) else none

/-- Decode consecutive hex-digit pairs into bytes. -/
def hexPairsToBytes : List Char → List Nat
  | a :: b :: rest => (16 * hexDigVal a + hexDigVal b) :: hexPairsToBytes rest
  | _ => []

/-- `str::parse::<Bytes>()`: an even number of hex digits after the
optional prefix. -/
def parseBytes (s : String) : Option (List Nat) :=
  let t := strip0x s.data
  if t.length % 2 = 0 ∧ t.all isHexDig then some (hexPairsToBytes t)
  else none

/-- `str::parse::<U256>()`: hexadecimal, at most 64 digits after the
optional prefix. -/
def parseU256 (s : String) : Option Nat :=
  let t := strip0x s.data
  if t.length ≤ 64 ∧ t.all isHexDig then some (hexToNat t) else none

/-! ## The transaction-request builder (lib.rs lines 206-252) -/

/-- The `Box<dyn Error>` values `to_transaction_request` can return: the
`&str` literals `Missing 'x' field` (carrying here the quoted field
name `x`), or the parse error of one of the three primitive types
(carrying the offending input). -/
inductive TxError where
  | missingField (fieldName : String)
  | parseError (input : String)
deriving DecidableEq, Repr

/-- `ethers::core::types::TransactionRequest`, the fields the builder
touches.  The Rust field `from` is named `from_` (`from` is reserved
here); `to` holds the parsed address value. -/
structure TransactionRequest where
  from_ : Option Nat
  «to» : Option Nat
  gas_price : Option Nat
  gas : Option Nat
  value : Option Nat
  data : Option (List Nat)
  nonce : Option Nat
  chain_id : Option Nat
deriving DecidableEq, Repr

/-- `ToTransactionRequest::to_transaction_request` (lib.rs lines 216-251):
for each of `to`, `data`, `value`, `gas_price` in that order, fail on an
absent field with the missing-field error naming it, else parse the
present string, propagating the parse error; on success populate exactly
`to`, `gas_price`, `value`, `data`. -/
def to_transaction_request (q : ZeroXQuoteResponse) :
    Except TxError TransactionRequest :=
  match q.«to» with
  | none => .error (.missingField "to")
  | some toStr =>
    match parseAddress toStr with
    | none => .error (.parseError toStr)
    | some toAddr =>
      match q.data with
      | none => .error (.missingField "data")
      | some dataStr =>
        match parseBytes dataStr with
        | none => .error (.parseError dataStr)
        | some dataBytes =>
          match q.value with
          | none => .error (.missingField "value")
          | some valueStr =>
            match parseU256 valueStr with
            | none => .error (.parseError valueStr)
            | some valueInt =>
              match q.gas_price with
              | none => .error (.missingField "gas_price")
              | some gasPriceStr =>
                match parseU256 gasPriceStr with
                | none => .error (.parseError gasPriceStr)
                | some gasPriceInt =>
                  .ok { from_ := none, «to» := some toAddr,
                        gas_price := some gasPriceInt, gas := none,
                        value := some valueInt, data := some dataBytes,
                        nonce := none, chain_id := none }

/-! ## Declarative view of a successful strict decode

To state that a decoded `ZeroXQuoteResponse` agrees with the input JSON,
the following relations describe, per field, what agreement means — first
occurrence of the key in the object, absent or `null` keys giving the
unset state, a present value being exactly the field's content.  They are
stated against the JSON object directly, independent of how the decoder
walks it. -/

/-- The first binding of `key` in a JSON object. -/
def lookupField (key : String) (fields : List (String × Json)) : Option Json :=
  ((fields.filter (fun kv => kv.1 == key)).head?).map (fun kv => kv.2)

/-- An optional field agrees with the key's binding: absent or `null`
means unset, a present value must be related by `R` to the content. -/
def OptMatches (R : Json → α → Prop) : Option Json → Option α → Prop
  | none, r => r = none
  | some .null, r => r = none
  | some v, r => ∃ a, r = some a ∧ R v a

/-- A string field carries exactly the JSON string. -/
def StrMatches (v : Json) (s : String) : Prop := v = .str s

/-- An `i32` field carries exactly the JSON integer, in range. -/
def I32Matches (v : Json) (n : Int) : Prop :=
  v = .num n ∧ -2147483648 ≤ n ∧ n ≤ 2147483647

/-- A list field carries the elements of the JSON array, in order. -/
def ListMatches (R : Json → α → Prop) (v : Json) (l : List α) : Prop :=
  ∃ xs, v = .arr xs ∧ List.Forall₂ R xs l

/-- A decoded `Source` agrees with its JSON object. -/
def SourceMatches (v : Json) (s : Source) : Prop :=
  ∃ fs, v = .obj fs ∧
    OptMatches StrMatches (lookupField "name" fs) s.name ∧
    OptMatches StrMatches (lookupField "proportion" fs) s.proportion

/-- A decoded `FillData` agrees with its JSON object. -/
def FillDataMatches (v : Json) (f : FillData) : Prop :=
  ∃ fs, v = .obj fs ∧
    OptMatches (ListMatches StrMatches) (lookupField "tokenAddressPath" fs)
      f.token_address_path ∧
    OptMatches StrMatches (lookupField "router" fs) f.router

/-- A decoded `Order` agrees with its JSON object. -/
def OrderMatches (v : Json) (o : Order) : Prop :=
  ∃ fs, v = .obj fs ∧
    OptMatches StrMatches (lookupField "makerToken" fs) o.maker_token ∧
    OptMatches StrMatches (lookupField "takerToken" fs) o.taker_token ∧
    OptMatches StrMatches (lookupField "makerAmount" fs) o.maker_amount ∧
    OptMatches StrMatches (lookupField "takerAmount" fs) o.taker_amount ∧
    OptMatches FillDataMatches (lookupField "fillData" fs) o.fill_data ∧
    OptMatches StrMatches (lookupField "source" fs) o.source ∧
    OptMatches StrMatches (lookupField "sourcePathId" fs) o.source_path_id ∧
    OptMatches I32Matches (lookupField "type" fs) o.type_

/-- A decoded `ZeroExFee` agrees with its JSON object. -/
def ZeroExFeeMatches (v : Json) (z : ZeroExFee) : Prop :=
  ∃ fs, v = .obj fs ∧
    OptMatches StrMatches (lookupField "billingType" fs) z.billing_type ∧
    OptMatches StrMatches (lookupField "feeAmount" fs) z.fee_amount ∧
    OptMatches StrMatches (lookupField "feeToken" fs) z.fee_token ∧
    OptMatches StrMatches (lookupField "feeType" fs) z.fee_type

/-- A decoded `Fees` agrees with its JSON object. -/
def FeesMatches (v : Json) (f : Fees) : Prop :=
  ∃ fs, v = .obj fs ∧
    OptMatches ZeroExFeeMatches (lookupField "zeroExFee" fs) f.zero_ex_fee

/-- A decoded quote agrees, field by field, with the JSON object it was
decoded from: present fields carry the JSON content, absent or `null`
fields are unset. -/
def QuoteMatches (fields : List (String × Json)) (q : ZeroXQuoteResponse) : Prop :=
  OptMatches I32Matches (lookupField "chainId" fields) q.chain_id ∧
  OptMatches StrMatches (lookupField "price" fields) q.price ∧
  OptMatches StrMatches (lookupField "guaranteedPrice" fields) q.guaranteed_price ∧
  OptMatches StrMatches (lookupField "estimatedPriceImpact" fields) q.estimated_price_impact ∧
  OptMatches StrMatches (lookupField "to" fields) q.«to» ∧
  OptMatches StrMatches (lookupField "data" fields) q.data ∧
  OptMatches StrMatches (lookupField "value" fields) q.value ∧
  OptMatches StrMatches (lookupField "gas" fields) q.gas ∧
  OptMatches StrMatches (lookupField "estimatedGas" fields) q.estimated_gas ∧
  OptMatches StrMatches (lookupField "gasPrice" fields) q.gas_price ∧
  OptMatches StrMatches (lookupField "protocolFee" fields) q.protocol_fee ∧
  OptMatches StrMatches (lookupField "minimumProtocolFee" fields) q.minimum_protocol_fee ∧
  OptMatches StrMatches (lookupField "buyTokenAddress" fields) q.buy_token_address ∧
  OptMatches StrMatches (lookupField "sellTokenAddress" fields) q.sell_token_address ∧
  OptMatches StrMatches (lookupField "buyAmount" fields) q.buy_amount ∧
  OptMatches StrMatches (lookupField "sellAmount" fields) q.sell_amount ∧
  OptMatches (ListMatches SourceMatches) (lookupField "sources" fields) q.sources ∧
  OptMatches (ListMatches OrderMatches) (lookupField "orders" fields) q.orders ∧
  OptMatches StrMatches (lookupField "allowanceTarget" fields) q.allowance_target ∧
  OptMatches StrMatches (lookupField "sellTokenToEthRate" fields) q.sell_token_to_eth_rate ∧
  OptMatches StrMatches (lookupField "buyTokenToEthRate" fields) q.buy_token_to_eth_rate ∧
  OptMatches FeesMatches (lookupField "fees" fields) q.fees ∧
  OptMatches StrMatches (lookupField "grossPrice" fields) q.gross_price ∧
  OptMatches StrMatches (lookupField "grossBuyAmount" fields) q.gross_buy_amount ∧
  OptMatches StrMatches (lookupField "grossSellAmount" fields) q.gross_sell_amount

/-! ## Decoder soundness: a successful decode agrees with the JSON -/

/-- Splitting a successful `Except` bind. -/
theorem bindOk {ε α β : Type} {e : Except ε α} {f : α → Except ε β} {b : β}
    (h : (e >>= f) = .ok b) : ∃ a, e = .ok a ∧ f a = .ok b := by
  cases e with
  | error x => exact absurd h (by simp [Bind.bind, Except.bind])
  | ok a => exact ⟨a, rfl, by simpa [Bind.bind, Except.bind] using h⟩

/-- `decString` is sound for `StrMatches`. -/
theorem decString_matches {v : Json} {s : String}
    (h : decString v = .ok s) : StrMatches v s := by
  cases v
  case str s2 => simp [decString] at h; simp [StrMatches, h]
  all_goals exact absurd h (by simp [decString])

/-- `decI32` is sound for `I32Matches`. -/
theorem decI32_matches {v : Json} {n : Int}
    (h : decI32 v = .ok n) : I32Matches v n := by
  cases v
  case num m =>
    simp only [decI32] at h
    split at h
    · rename_i hc
      simp at h
      simp only [I32Matches]
      refine ⟨by rw [h], by omega⟩
    · exact absurd h (by simp)
  all_goals exact absurd h (by simp [decI32])

/-- Splitting a successful `Except.map some`. -/
theorem mapSome_ok {α : Type} {e : Except String α} {r : Option α}
    (h : e.map some = .ok r) : ∃ a, e = .ok a ∧ r = some a := by
  cases e with
  | error x => exact absurd h (by simp [Except.map])
  | ok a => exact ⟨a, rfl, by simpa [Except.map] using h.symm⟩

/-- A successful element-wise decode relates input and output lists
pointwise. -/
theorem decListAux_forall2 {α : Type} {R : Json → α → Prop}
    {dec : Json → Except String α}
    (hdec : ∀ v a, dec v = .ok a → R v a) :
    ∀ (xs : List Json) (l : List α), decListAux dec xs = .ok l →
      List.Forall₂ R xs l := by
  intro xs
  induction xs with
  | nil =>
      intro l h
      simp [decListAux] at h
      rw [h]
      exact List.Forall₂.nil
  | cons x rest ih =>
      intro l h
      unfold decListAux at h
      obtain ⟨a, ha, h⟩ := bindOk h
      obtain ⟨as, has, h⟩ := bindOk h
      simp [pure, Except.pure] at h
      rw [← h]
      exact List.Forall₂.cons (hdec _ _ ha) (ih _ has)

/-- `decList` is sound for `ListMatches`. -/
theorem decList_matches {α : Type} {R : Json → α → Prop}
    {dec : Json → Except String α}
    (hdec : ∀ v a, dec v = .ok a → R v a) {v : Json} {l : List α}
    (h : decList dec v = .ok l) : ListMatches R v l := by
  cases v
  case arr xs =>
    simp [decList] at h
    exact ⟨xs, rfl, decListAux_forall2 hdec xs l h⟩
  all_goals exact absurd h (by simp [decList])

/-- A successful `getOpt` answers exactly the first binding of the key. -/
theorem getOpt_ok {key : String} {fields : List (String × Json)}
    {r : Option Json} (h : getOpt key fields = .ok r) :
    lookupField key fields = r := by
  unfold getOpt at h
  unfold lookupField
  cases hf : fields.filter (fun kv => kv.1 == key) with
  | nil => rw [hf] at h; simp at h; simp [← h]
  | cons kv rest =>
    cases rest with
    | nil => rw [hf] at h; simp at h; simp [← h]
    | cons kv2 rest2 => rw [hf] at h; simp at h

/-- `decodeField` is sound: the decoded optional field agrees with the
first binding of the key. -/
theorem decodeField_matches {α : Type} {R : Json → α → Prop}
    {dec : Json → Except String α}
    (hdec : ∀ v a, dec v = .ok a → R v a)
    {key : String} {fields : List (String × Json)} {r : Option α}
    (h : decodeField dec key fields = .ok r) :
    OptMatches R (lookupField key fields) r := by
  unfold decodeField at h
  cases hg : getOpt key fields with
  | error e => rw [hg] at h; exact absurd h (by simp)
  | ok j =>
    rw [hg] at h
    rw [getOpt_ok hg]
    cases j with
    | none => simp at h; simp [← h, OptMatches]
    | some v =>
      cases v with
      | null => simp at h; simp [← h, OptMatches]
      | bool b =>
          simp [OptMatches]
          obtain ⟨a, ha, hr⟩ := mapSome_ok (by simpa using h)
          exact ⟨a, hr, hdec _ _ ha⟩
      | num n =>
          simp [OptMatches]
          obtain ⟨a, ha, hr⟩ := mapSome_ok (by simpa using h)
          exact ⟨a, hr, hdec _ _ ha⟩
      | str s =>
          simp [OptMatches]
          obtain ⟨a, ha, hr⟩ := mapSome_ok (by simpa using h)
          exact ⟨a, hr, hdec _ _ ha⟩
      | arr xs =>
          simp [OptMatches]
          obtain ⟨a, ha, hr⟩ := mapSome_ok (by simpa using h)
          exact ⟨a, hr, hdec _ _ ha⟩
      | obj fs =>
          simp [OptMatches]
          obtain ⟨a, ha, hr⟩ := mapSome_ok (by simpa using h)
          exact ⟨a, hr, hdec _ _ ha⟩

/-- `decSource` is sound for `SourceMatches`. -/
theorem decSource_matches : ∀ (v : Json) (s : Source),
    decSource v = .ok s → SourceMatches v s := by
  intro v s h
  cases v
  case obj fs =>
    simp only [decSource] at h
    obtain ⟨nm, h1, h⟩ := bindOk h
    obtain ⟨pr, h2, h⟩ := bindOk h
    simp [pure, Except.pure] at h
    subst h
    exact ⟨fs, rfl,
      decodeField_matches (R := StrMatches) (fun _ _ hv => decString_matches hv) h1,
      decodeField_matches (R := StrMatches) (fun _ _ hv => decString_matches hv) h2⟩
  all_goals exact absurd h (by simp [decSource])

/-- `decFillData` is sound for `FillDataMatches`. -/
theorem decFillData_matches : ∀ (v : Json) (f : FillData),
    decFillData v = .ok f → FillDataMatches v f := by
  intro v f h
  cases v
  case obj fs =>
    simp only [decFillData] at h
    obtain ⟨tp, h1, h⟩ := bindOk h
    obtain ⟨rt, h2, h⟩ := bindOk h
    simp [pure, Except.pure] at h
    subst h
    exact ⟨fs, rfl,
      decodeField_matches (R := ListMatches StrMatches)
        (fun _ _ hv =>
          decList_matches (R := StrMatches)
            (fun _ _ hw => decString_matches hw) hv) h1,
      decodeField_matches (R := StrMatches) (fun _ _ hv => decString_matches hv) h2⟩
  all_goals exact absurd h (by simp [decFillData])

/-- `decOrder` is sound for `OrderMatches`. -/
theorem decOrder_matches : ∀ (v : Json) (o : Order),
    decOrder v = .ok o → OrderMatches v o := by
  intro v o h
  cases v
  case obj fs =>
    simp only [decOrder] at h
    obtain ⟨f1, h1, h⟩ := bindOk h
    obtain ⟨f2, h2, h⟩ := bindOk h
    obtain ⟨f3, h3, h⟩ := bindOk h
    obtain ⟨f4, h4, h⟩ := bindOk h
    obtain ⟨f5, h5, h⟩ := bindOk h
    obtain ⟨f6, h6, h⟩ := bindOk h
    obtain ⟨f7, h7, h⟩ := bindOk h
    obtain ⟨f8, h8, h⟩ := bindOk h
    simp [pure, Except.pure] at h
    subst h
    exact ⟨fs, rfl,
      decodeField_matches (R := StrMatches) (fun _ _ hv => decString_matches hv) h1,
      decodeField_matches (R := StrMatches) (fun _ _ hv => decString_matches hv) h2,
      decodeField_matches (R := StrMatches) (fun _ _ hv => decString_matches hv) h3,
      decodeField_matches (R := StrMatches) (fun _ _ hv => decString_matches hv) h4,
      decodeField_matches (R := FillDataMatches) (fun _ _ hv => decFillData_matches _ _ hv) h5,
      decodeField_matches (R := StrMatches) (fun _ _ hv => decString_matches hv) h6,
      decodeField_matches (R := StrMatches) (fun _ _ hv => decString_matches hv) h7,
      decodeField_matches (R := I32Matches) (fun _ _ hv => decI32_matches hv) h8⟩
  all_goals exact absurd h (by simp [decOrder])

/-- `decZeroExFee` is sound for `ZeroExFeeMatches`. -/
theorem decZeroExFee_matches : ∀ (v : Json) (z : ZeroExFee),
    decZeroExFee v = .ok z → ZeroExFeeMatches v z := by
  intro v z h
  cases v
  case obj fs =>
    simp only [decZeroExFee] at h
    obtain ⟨f1, h1, h⟩ := bindOk h
    obtain ⟨f2, h2, h⟩ := bindOk h
    obtain ⟨f3, h3, h⟩ := bindOk h
    obtain ⟨f4, h4, h⟩ := bindOk h
    simp [pure, Except.pure] at h
    subst h
    exact ⟨fs, rfl,
      decodeField_matches (R := StrMatches) (fun _ _ hv => decString_matches hv) h1,
      decodeField_matches (R := StrMatches) (fun _ _ hv => decString_matches hv) h2,
      decodeField_matches (R := StrMatches) (fun _ _ hv => decString_matches hv) h3,
      decodeField_matches (R := StrMatches) (fun _ _ hv => decString_matches hv) h4⟩
  all_goals exact absurd h (by simp [decZeroExFee])

/-- `decFees` is sound for `FeesMatches`. -/
theorem decFees_matches : ∀ (v : Json) (f : Fees),
    decFees v = .ok f → FeesMatches v f := by
  intro v f h
  cases v
  case obj fs =>
    simp only [decFees] at h
    obtain ⟨f1, h1, h⟩ := bindOk h
    simp [pure, Except.pure] at h
    subst h
    exact ⟨fs, rfl,
      decodeField_matches (R := ZeroExFeeMatches) (fun _ _ hv => decZeroExFee_matches _ _ hv) h1⟩
  all_goals exact absurd h (by simp [decFees])

/-- A successful strict decode agrees, field by field, with the input
JSON object: present fields carry the JSON content, absent or `null`
fields are unset.  In particular a non-object input never decodes. -/
theorem fromValue_matches {v : Json} {q : ZeroXQuoteResponse}
    (h : fromValue v = .ok q) :
    ∃ fields, v = .obj fields ∧ QuoteMatches fields q := by
  cases v
  case obj fs =>
    refine ⟨fs, rfl, ?_⟩
    simp only [fromValue] at h
    obtain ⟨g1, h1, h⟩ := bindOk h
    obtain ⟨g2, h2, h⟩ := bindOk h
    obtain ⟨g3, h3, h⟩ := bindOk h
    obtain ⟨g4, h4, h⟩ := bindOk h
    obtain ⟨g5, h5, h⟩ := bindOk h
    obtain ⟨g6, h6, h⟩ := bindOk h
    obtain ⟨g7, h7, h⟩ := bindOk h
    obtain ⟨g8, h8, h⟩ := bindOk h
    obtain ⟨g9, h9, h⟩ := bindOk h
    obtain ⟨g10, h10, h⟩ := bindOk h
    obtain ⟨g11, h11, h⟩ := bindOk h
    obtain ⟨g12, h12, h⟩ := bindOk h
    obtain ⟨g13, h13, h⟩ := bindOk h
    obtain ⟨g14, h14, h⟩ := bindOk h
    obtain ⟨g15, h15, h⟩ := bindOk h
    obtain ⟨g16, h16, h⟩ := bindOk h
    obtain ⟨g17, h17, h⟩ := bindOk h
    obtain ⟨g18, h18, h⟩ := bindOk h
    obtain ⟨g19, h19, h⟩ := bindOk h
    obtain ⟨g20, h20, h⟩ := bindOk h
    obtain ⟨g21, h21, h⟩ := bindOk h
    obtain ⟨g22, h22, h⟩ := bindOk h
    obtain ⟨g23, h23, h⟩ := bindOk h
    obtain ⟨g24, h24, h⟩ := bindOk h
    obtain ⟨g25, h25, h⟩ := bindOk h
    simp [pure, Except.pure] at h
    subst h
    exact ⟨decodeField_matches (R := I32Matches) (fun _ _ hv => decI32_matches hv) h1,
      decodeField_matches (R := StrMatches) (fun _ _ hv => decString_matches hv) h2,
      decodeField_matches (R := StrMatches) (fun _ _ hv => decString_matches hv) h3,
      decodeField_matches (R := StrMatches) (fun _ _ hv => decString_matches hv) h4,
      decodeField_matches (R := StrMatches) (fun _ _ hv => decString_matches hv) h5,
      decodeField_matches (R := StrMatches) (fun _ _ hv => decString_matches hv) h6,
      decodeField_matches (R := StrMatches) (fun _ _ hv => decString_matches hv) h7,
      decodeField_matches (R := StrMatches) (fun _ _ hv => decString_matches hv) h8,
      decodeField_matches (R := StrMatches) (fun _ _ hv => decString_matches hv) h9,
      decodeField_matches (R := StrMatches) (fun _ _ hv => decString_matches hv) h10,
      decodeField_matches (R := StrMatches) (fun _ _ hv => decString_matches hv) h11,
      decodeField_matches (R := StrMatches) (fun _ _ hv => decString_matches hv) h12,
      decodeField_matches (R := StrMatches) (fun _ _ hv => decString_matches hv) h13,
      decodeField_matches (R := StrMatches) (fun _ _ hv => decString_matches hv) h14,
      decodeField_matches (R := StrMatches) (fun _ _ hv => decString_matches hv) h15,
      decodeField_matches (R := StrMatches) (fun _ _ hv => decString_matches hv) h16,
      decodeField_matches (R := ListMatches SourceMatches)
        (fun _ _ hv =>
          decList_matches (R := SourceMatches)
            (fun _ _ hw => decSource_matches _ _ hw) hv) h17,
      decodeField_matches (R := ListMatches OrderMatches)
        (fun _ _ hv =>
          decList_matches (R := OrderMatches)
            (fun _ _ hw => decOrder_matches _ _ hw) hv) h18,
      decodeField_matches (R := StrMatches) (fun _ _ hv => decString_matches hv) h19,
      decodeField_matches (R := StrMatches) (fun _ _ hv => decString_matches hv) h20,
      decodeField_matches (R := StrMatches) (fun _ _ hv => decString_matches hv) h21,
      decodeField_matches (R := FeesMatches) (fun _ _ hv => decFees_matches _ _ hv) h22,
      decodeField_matches (R := StrMatches) (fun _ _ hv => decString_matches hv) h23,
      decodeField_matches (R := StrMatches) (fun _ _ hv => decString_matches hv) h24,
      decodeField_matches (R := StrMatches) (fun _ _ hv => decString_matches hv) h25⟩
  all_goals exact absurd h (by simp [fromValue])

/-! ## Helper lemmas about the encoded query -/

/-- Key membership in the encoded query, characterised per field. -/
theorem encodeQuery_keys_mem (p : ZeroXQuoteParams) (k : String) :
    k ∈ (encodeQuery p).map Prod.fst ↔
      k = "sellToken" ∨ k = "buyToken" ∨ k = "sellAmount" ∨
      (k = "takerAddress" ∧ p.taker_address.isSome = true) ∨
      (k = "feeRecipient" ∧ p.fee_recipient.isSome = true) ∨
      (k = "buyTokenPercentageFee" ∧ p.buy_token_percentage_fee.isSome = true) ∨
      (k = "slippagePercentage" ∧ p.slippage_percentage.isSome = true) ∨
      (k = "excludedSources" ∧ p.excluded_sources.isSome = true) ∨
      (k = "includedSources" ∧ p.included_sources.isSome = true) ∨
      (k = "skipValidation" ∧ p.skip_validation.isSome = true) := by
  obtain ⟨st, bt, sa, fr, btf, ta, sp, es, inc, sv⟩ := p
  rcases ta with _ | ta <;> rcases fr with _ | fr <;> rcases btf with _ | btf <;>
    rcases sp with _ | sp <;> rcases es with _ | es <;> rcases inc with _ | inc <;>
    rcases sv with _ | sv <;>
    simp [encodeQuery, optEntry, optListEntry]

/-- The three required keys are always bound to the required fields. -/
theorem encodeQuery_lookup_required (p : ZeroXQuoteParams) :
    (encodeQuery p).lookup "sellToken" = some p.sell_token ∧
    (encodeQuery p).lookup "buyToken" = some p.buy_token ∧
    (encodeQuery p).lookup "sellAmount" = some p.sell_amount := by
  simp [encodeQuery, List.lookup]

/-- The `excludedSources` binding is exactly the comma-join of a present
list. -/
theorem encodeQuery_lookup_excluded (p : ZeroXQuoteParams) :
    (encodeQuery p).lookup "excludedSources" =
      p.excluded_sources.map (String.intercalate ",") := by
  obtain ⟨st, bt, sa, fr, btf, ta, sp, es, inc, sv⟩ := p
  rcases ta with _ | ta <;> rcases fr with _ | fr <;> rcases btf with _ | btf <;>
    rcases sp with _ | sp <;> rcases es with _ | es <;> rcases inc with _ | inc <;>
    rcases sv with _ | sv <;>
    simp [encodeQuery, optEntry, optListEntry, List.lookup]

/-- The `includedSources` binding is exactly the comma-join of a present
list. -/
theorem encodeQuery_lookup_included (p : ZeroXQuoteParams) :
    (encodeQuery p).lookup "includedSources" =
      p.included_sources.map (String.intercalate ",") := by
  obtain ⟨st, bt, sa, fr, btf, ta, sp, es, inc, sv⟩ := p
  rcases ta with _ | ta <;> rcases fr with _ | fr <;> rcases btf with _ | btf <;>
    rcases sp with _ | sp <;> rcases es with _ | es <;> rcases inc with _ | inc <;>
    rcases sv with _ | sv <;>
    simp [encodeQuery, optEntry, optListEntry, List.lookup]

/-! ## Shared concrete inputs -/

/-- The spec's concrete well-formed quote: `to` the address 1, empty call
data, decimal-digit `value` and `gasPrice` strings. -/
def quoteExample : ZeroXQuoteResponse :=
  { «to» := some "0x0000000000000000000000000000000000000001",
    data := some "0x",
    value := some "1000000000000000000",
    gas_price := some "20000000000" }

/-- The transaction request the builder produces from `quoteExample`. -/
def txExample : TransactionRequest :=
  { from_ := none, «to» := some 1, gas_price := some 2199023255552,
    gas := none, value := some 4722366482869645213696,
    data := some [], nonce := none, chain_id := none }

/-- A concrete parameter set with only the required fields. -/
def paramsExample : ZeroXQuoteParams :=
  { sell_token := "ETH",
    buy_token := "0x6b175474e89094c44da98b954eedeac495271d0f",
    sell_amount := "1000000000000000000" }

/-! ## The claims -/

/-- Claim C1 (code-bug evidence): on the spec's own example the build
succeeds, but the `U256` `FromStr` the code calls parses the digit
strings as HEXADECIMAL, so the resulting `value` is
0x1000000000000000000 = 4722366482869645213696, not the decimal reading
1000000000000000000 the claim states (and `gasPrice` is 0x20000000000 =
2199023255552, not 20000000000). -/
theorem value_and_gas_price_parsed_as_hexadecimal :
    to_transaction_request quoteExample = .ok txExample ∧
    txExample.value = some 4722366482869645213696 ∧
    txExample.gas_price = some 2199023255552 ∧
    (4722366482869645213696 : Nat) ≠ 1000000000000000000 ∧
    (2199023255552 : Nat) ≠ 20000000000 := by
  refine ⟨rfl, rfl, rfl, by decide, by decide⟩

/-- Claim C2 (code-bug evidence): every documented chain id resolves at
construction and the resolved URL is stored with the API key; an
undocumented id (2) fails with `InvalidChainId` carrying the id; but for
chain id 10 the stored URL is the misspelled
`https://optimisim.api.0x.org`, not `https://optimism.api.0x.org`. -/
theorem chain_id_resolution_table :
    ZeroXClient.new 1 "k" = .ok ⟨"https://api.0x.org", "k"⟩ ∧
    ZeroXClient.new 42161 "k" = .ok ⟨"https://arbitrum.api.0x.org", "k"⟩ ∧
    ZeroXClient.new 43114 "k" = .ok ⟨"https://avalanche.api.0x.org", "k"⟩ ∧
    ZeroXClient.new 250 "k" = .ok ⟨"https://fantom.api.0x.org", "k"⟩ ∧
    ZeroXClient.new 137 "k" = .ok ⟨"https://polygon.api.0x.org", "k"⟩ ∧
    ZeroXClient.new 42220 "k" = .ok ⟨"https://celo.api.0x.org", "k"⟩ ∧
    ZeroXClient.new 56 "k" = .ok ⟨"https://bsc.api.0x.org", "k"⟩ ∧
    ZeroXClient.new 10 "k" = .ok ⟨"https://optimisim.api.0x.org", "k"⟩ ∧
    "https://optimisim.api.0x.org" ≠ "https://optimism.api.0x.org" ∧
    ZeroXClient.new 2 "k" = .error (.invalidChainId 2) := by
  refine ⟨rfl, rfl, rfl, rfl, rfl, rfl, rfl, rfl, by decide, rfl⟩

/-- A quote whose `to` is present but unparseable while `data`, `value`
and `gas_price` are absent. -/
def quoteBadTo : ZeroXQuoteResponse := { «to» := some "zz" }

/-- Claim C3 (counterexample): for `quoteBadTo` the first absent field
among to, data, value, gasPrice is `data`, yet the build fails with the
parse error of the present `to`, not with a missing-field error naming
`data` (nor any missing-field error). -/
theorem parse_failure_preempts_missing_field :
    quoteBadTo.data = none ∧ quoteBadTo.value = none ∧
    quoteBadTo.gas_price = none ∧
    to_transaction_request quoteBadTo = .error (.parseError "zz") ∧
    TxError.parseError "zz" ≠ TxError.missingField "data" := by
  refine ⟨rfl, rfl, rfl, rfl, by decide⟩

/-- Claim C3 (amended): the fields to, data, value, gas_price are
examined in that order, each present field being parsed before the next
is examined; when every earlier field is present and parses, an absent
field short-circuits with the missing-field error naming it — in
particular gas_price when to, data, value are present and well-formed. -/
theorem missing_field_short_circuit (q : ZeroXQuoteResponse) :
    (q.«to» = none →
      to_transaction_request q = .error (.missingField "to")) ∧
    (∀ s a, q.«to» = some s → parseAddress s = some a → q.data = none →
      to_transaction_request q = .error (.missingField "data")) ∧
    (∀ s a d b, q.«to» = some s → parseAddress s = some a →
      q.data = some d → parseBytes d = some b → q.value = none →
      to_transaction_request q = .error (.missingField "value")) ∧
    (∀ s a d b w n, q.«to» = some s → parseAddress s = some a →
      q.data = some d → parseBytes d = some b → q.value = some w →
      parseU256 w = some n → q.gas_price = none →
      to_transaction_request q = .error (.missingField "gas_price")) := by
  refine ⟨fun h1 => ?_, fun s a h1 h2 h3 => ?_,
          fun s a d b h1 h2 h3 h4 h5 => ?_,
          fun s a d b w n h1 h2 h3 h4 h5 h6 h7 => ?_⟩ <;>
    simp [to_transaction_request, *]

/-- A quote with to, data, value present and parseable but gas_price
absent. -/
def quoteNoGasPrice : ZeroXQuoteResponse :=
  { «to» := some "0x0000000000000000000000000000000000000001",
    data := some "0x", value := some "0" }

/-- Claim C3 witness: with gas_price the first failing field, the error
names gas_price. -/
theorem missing_field_short_circuit_witness :
    to_transaction_request quoteNoGasPrice =
      .error (.missingField "gas_price") :=
  (missing_field_short_circuit quoteNoGasPrice).2.2.2
    "0x0000000000000000000000000000000000000001" 1 "0x" [] "0" 0
    rfl (by decide) rfl (by decide) rfl (by decide) rfl

/-- Claim C4: for any response whose status differs from 200, with any
body whatsoever, `get_quote` returns the status-code error carrying that
status; the body term plays no role in the result. -/
theorem non_200_status_short_circuits (status : Nat)
    (b : Except ReqwestError Json) (c : ZeroXClient) (p : ZeroXQuoteParams)
    (hkey : c.api_key.data.all validHeaderChar = true)
    (hs : status ≠ 200) :
    processResponse ⟨status, b⟩ =
      .error (.zeroXInvalidResponseStatusCode status) ∧
    get_quote c p ⟨status, b⟩ =
      some (.error (.zeroXInvalidResponseStatusCode status)) := by
  have hp : processResponse ⟨status, b⟩ =
      .error (.zeroXInvalidResponseStatusCode status) := by
    simp [processResponse, hs]
  refine ⟨hp, ?_⟩
  simp [get_quote, buildRequest, buildRequestHeaders, headerValueFromStr,
        hkey, hp]

/-- Claim C4 witness: a 400 with a JSON error body yields the 400 status
error. -/
theorem non_200_status_short_circuits_witness :
    get_quote ⟨"https://api.0x.org", "key"⟩ paramsExample
      ⟨400, .ok (.obj [("reason", .str "Validation Failed")])⟩ =
      some (.error (.zeroXInvalidResponseStatusCode 400)) :=
  (non_200_status_short_circuits 400
    (.ok (.obj [("reason", .str "Validation Failed")]))
    ⟨"https://api.0x.org", "key"⟩ paramsExample (by decide) (by decide)).2

/-- Claim C8: a successful build populates exactly to, value, gas_price,
data; from, gas, nonce and chain_id stay unset (and a failure carries
only the error value — the result type holds no partial request). -/
theorem successful_build_minimal_fields (q : ZeroXQuoteResponse)
    (t : TransactionRequest) (h : to_transaction_request q = .ok t) :
    t.from_ = none ∧ t.gas = none ∧ t.nonce = none ∧ t.chain_id = none ∧
    t.«to».isSome = true ∧ t.value.isSome = true ∧
    t.gas_price.isSome = true ∧ t.data.isSome = true := by
  unfold to_transaction_request at h
  repeat' split at h
  all_goals
    first
      | (simp only [Except.ok.injEq] at h; subst h; simp)
      | exact absurd h (by simp)

/-- Claim C8 witness: the concrete example build has exactly the minimal
fields populated. -/
theorem successful_build_minimal_fields_witness :
    txExample.from_ = none ∧ txExample.gas = none ∧
    txExample.nonce = none ∧ txExample.chain_id = none ∧
    txExample.«to».isSome = true ∧ txExample.value.isSome = true ∧
    txExample.gas_price.isSome = true ∧ txExample.data.isSome = true :=
  successful_build_minimal_fields quoteExample txExample rfl

/-- Claim C10: an API key containing a header-illegal character (any
code point below 32 other than tab, or DEL) makes `get_quote` panic at
the unwrapped header construction — it returns no `ClientError`. -/
theorem illegal_api_key_panics (c : ZeroXClient) (p : ZeroXQuoteParams)
    (r : HttpResponse) (ch : Char) (hmem : ch ∈ c.api_key.data)
    (hbad : validHeaderChar ch = false) :
    get_quote c p r = none := by
  have hall : c.api_key.data.all validHeaderChar = false := by
    rw [List.all_eq_false]
    exact ⟨ch, hmem, by simp [hbad]⟩
  simp [get_quote, buildRequest, buildRequestHeaders, headerValueFromStr,
        hall]

/-- Claim C10 witness: a newline in the API key panics the call. -/
theorem illegal_api_key_panics_witness :
    get_quote ⟨"https://api.0x.org", "bad\nkey"⟩ paramsExample
      ⟨200, .ok (.obj [])⟩ = none :=
  illegal_api_key_panics ⟨"https://api.0x.org", "bad\nkey"⟩ paramsExample
    ⟨200, .ok (.obj [])⟩ '\n' (by decide) (by decide)

/-- Helper: is the result the strict-decode failure variant
(`ZeroXInvalidResponse`, the spec's MalformedResponse)? -/
def isMalformedResult : Except ZeroXClientError ZeroXQuoteResponse → Bool
  | .error (.zeroXInvalidResponse _) => true
  | _ => false

/-- Claim C5 (counterexample): a 200 response whose body fails the
generic decode (it is not valid JSON) is reported through the
`ZeroXQuoteError` (transport-failure) variant — the `?` on
`resp.json()` converts a `reqwest::Error` — and not through
`ZeroXInvalidResponse` (MalformedResponse) as the claim states. -/
theorem generic_decode_failure_not_malformed :
    processResponse ⟨200, .error (.decode "expected value at line 1 column 1")⟩ =
      .error (.zeroXQuoteError (.decode "expected value at line 1 column 1")) ∧
    isMalformedResult
      (processResponse
        ⟨200, .error (.decode "expected value at line 1 column 1")⟩) = false := by
  exact ⟨rfl, rfl⟩

/-- Claim C5 (amended): on a 200 status the two decodes happen in order:
a generic-decode failure surfaces as `ZeroXQuoteError` (the transport
variant, through the `#[from] reqwest::Error` conversion); a failure of
the strict decode into `ZeroXQuoteResponse` — including a present field
of an unexpected value type — surfaces as `ZeroXInvalidResponse` with
the cause; and on success the returned quote agrees field by field with
the JSON object: present fields carry the JSON content, absent and null
fields are unset. -/
theorem response_decode_classification (b : Except ReqwestError Json) :
    (∀ e, b = .error e →
      processResponse ⟨200, b⟩ = .error (.zeroXQuoteError e)) ∧
    (∀ v cause, b = .ok v → fromValue v = .error cause →
      processResponse ⟨200, b⟩ = .error (.zeroXInvalidResponse cause)) ∧
    (∀ v q, b = .ok v → fromValue v = .ok q →
      processResponse ⟨200, b⟩ = .ok q ∧
      ∃ fields, v = .obj fields ∧ QuoteMatches fields q) := by
  refine ⟨fun e he => ?_, fun v cause hb hf => ?_,
          fun v q hb hf => ⟨?_, fromValue_matches hf⟩⟩
  · simp [processResponse, he]
  · simp [processResponse, hb, hf]
  · simp [processResponse, hb, hf]

/-- Claim C5 witness: a present field of the wrong type (number where a
string is declared) is a strict-decode failure reported as
`ZeroXInvalidResponse`; a well-formed body decodes with the present field
carried over and every absent field unset. -/
theorem response_decode_classification_witness :
    processResponse ⟨200, .ok (.obj [("to", .num 5)])⟩ =
      .error (.zeroXInvalidResponse "invalid type: expected a string") ∧
    processResponse ⟨200, .ok (.obj [("price", .str "42")])⟩ =
      .ok { price := some "42" } := by
  constructor
  · exact (response_decode_classification
      (.ok (.obj [("to", .num 5)]))).2.1 _ _ rfl rfl
  · exact ((response_decode_classification
      (.ok (.obj [("price", .str "42")]))).2.2 _ { price := some "42" }
      rfl rfl).1

/-- Claim C6: the three required keys are always present and bound to the
required field values; with every optional field absent the key list is
exactly the three required keys; and each optional key appears in the
encoded query exactly when the corresponding optional field is set. -/
theorem query_required_and_optional_keys (p : ZeroXQuoteParams) :
    ((encodeQuery p).lookup "sellToken" = some p.sell_token ∧
     (encodeQuery p).lookup "buyToken" = some p.buy_token ∧
     (encodeQuery p).lookup "sellAmount" = some p.sell_amount) ∧
    (p.taker_address = none → p.fee_recipient = none →
     p.buy_token_percentage_fee = none → p.slippage_percentage = none →
     p.excluded_sources = none → p.included_sources = none →
     p.skip_validation = none →
     (encodeQuery p).map Prod.fst = ["sellToken", "buyToken", "sellAmount"]) ∧
    ("takerAddress" ∈ (encodeQuery p).map Prod.fst ↔
      p.taker_address.isSome = true) ∧
    ("feeRecipient" ∈ (encodeQuery p).map Prod.fst ↔
      p.fee_recipient.isSome = true) ∧
    ("buyTokenPercentageFee" ∈ (encodeQuery p).map Prod.fst ↔
      p.buy_token_percentage_fee.isSome = true) ∧
    ("slippagePercentage" ∈ (encodeQuery p).map Prod.fst ↔
      p.slippage_percentage.isSome = true) ∧
    ("excludedSources" ∈ (encodeQuery p).map Prod.fst ↔
      p.excluded_sources.isSome = true) ∧
    ("includedSources" ∈ (encodeQuery p).map Prod.fst ↔
      p.included_sources.isSome = true) ∧
    ("skipValidation" ∈ (encodeQuery p).map Prod.fst ↔
      p.skip_validation.isSome = true) := by
  refine ⟨encodeQuery_lookup_required p,
          fun h1 h2 h3 h4 h5 h6 h7 => ?_, ?_, ?_, ?_, ?_, ?_, ?_, ?_⟩
  · simp [encodeQuery, optEntry, optListEntry, h1, h2, h3, h4, h5, h6, h7]
  all_goals rw [encodeQuery_keys_mem]; simp

/-- Claim C6 witness: with only required fields set the key list is
exactly the three required keys, bound to the required values. -/
theorem query_required_and_optional_keys_witness :
    (encodeQuery paramsExample).map Prod.fst =
      ["sellToken", "buyToken", "sellAmount"] ∧
    (encodeQuery paramsExample).lookup "sellToken" = some "ETH" := by
  constructor
  · exact (query_required_and_optional_keys paramsExample).2.1
      rfl rfl rfl rfl rfl rfl rfl
  · exact ((query_required_and_optional_keys paramsExample).1).1

/-- Claim C7: a present excludedSources (includedSources) list is
encoded under its key as the comma-join of its elements, in input order,
with no escaping. -/
theorem sources_joined_with_commas (p : ZeroXQuoteParams) :
    (∀ l, p.excluded_sources = some l →
      (encodeQuery p).lookup "excludedSources" =
        some (String.intercalate "," l)) ∧
    (∀ l, p.included_sources = some l →
      (encodeQuery p).lookup "includedSources" =
        some (String.intercalate "," l)) := by
  constructor
  · intro l hl
    rw [encodeQuery_lookup_excluded, hl]
    rfl
  · intro l hl
    rw [encodeQuery_lookup_included, hl]
    rfl

/-- A parameter set excluding Uniswap and Kyber. -/
def paramsWithSources : ZeroXQuoteParams :=
  { sell_token := "ETH",
    buy_token := "0x6b175474e89094c44da98b954eedeac495271d0f",
    sell_amount := "1000000000000000000",
    excluded_sources := some ["Uniswap", "Kyber"] }

/-- Claim C7 witness: excludedSources = [Uniswap, Kyber] encodes to the
value Uniswap,Kyber. -/
theorem sources_joined_with_commas_witness :
    (encodeQuery paramsWithSources).lookup "excludedSources" =
      some "Uniswap,Kyber" := by
  have h := (sources_joined_with_commas paramsWithSources).1
    ["Uniswap", "Kyber"] rfl
  rw [h]
  rfl

/-- Claim C9: a present-but-empty excludedSources (includedSources) list
is encoded as its key bound to the empty string, while an absent list
omits the key entirely — the two cases stay distinguishable. -/
theorem empty_source_list_distinct_from_absent (p : ZeroXQuoteParams) :
    (p.excluded_sources = some [] →
      (encodeQuery p).lookup "excludedSources" = some "") ∧
    (p.excluded_sources = none →
      "excludedSources" ∉ (encodeQuery p).map Prod.fst) ∧
    (p.included_sources = some [] →
      (encodeQuery p).lookup "includedSources" = some "") ∧
    (p.included_sources = none →
      "includedSources" ∉ (encodeQuery p).map Prod.fst) := by
  refine ⟨fun h => ?_, fun h => ?_, fun h => ?_, fun h => ?_⟩
  · rw [encodeQuery_lookup_excluded, h]; rfl
  · rw [encodeQuery_keys_mem]; simp [h]
  · rw [encodeQuery_lookup_included, h]; rfl
  · rw [encodeQuery_keys_mem]; simp [h]

/-- A parameter set with an explicitly empty excludedSources list and no
includedSources. -/
def paramsEmptySources : ZeroXQuoteParams :=
  { sell_token := "ETH",
    buy_token := "0x6b175474e89094c44da98b954eedeac495271d0f",
    sell_amount := "1000000000000000000",
    excluded_sources := some [] }

/-- Claim C9 witness: the empty present list keeps its key, bound to the
empty string, while the absent list's key is missing. -/
theorem empty_source_list_distinct_from_absent_witness :
    (encodeQuery paramsEmptySources).lookup "excludedSources" = some "" ∧
    "includedSources" ∉ (encodeQuery paramsEmptySources).map Prod.fst := by
  constructor
  · exact (empty_source_list_distinct_from_absent paramsEmptySources).1 rfl
  · exact (empty_source_list_distinct_from_absent paramsEmptySources).2.2.2 rfl

end ZeroX
